import Mathlib

/-!
The ndctl device manager of pmem-csi (`pkg/pmem-device-manager/pmd-ndctl.go`).

A shallow embedding of the ndctl based PMEM device manager and the properties
of its capacity calculation, namespace life cycle and start-up guard.

* Go `uint64` values are natural numbers below `2 ^ 64`; every `uint64`
  addition and multiplication of the source is followed by `% 2 ^ 64`, and a
  `uint64` division by zero is a run-time panic (`none`).
* The hardware-control library (`pkg/ndctl`) and the zeroizer (`ClearDevice`)
  are consumed, not implemented, by the source file.  They are a parameter of
  every operation (`Facility`), acting on an explicit state.
* Every call into the facility is appended, with its result, to a call log, so
  that "which calls were made, in which order" is a statement about data.
* `ndctlMutex.Lock()` / `defer ndctlMutex.Unlock()` bracket every operation;
  the embedding is sequential and runs one operation at a time.
-/

namespace PmemCsi

/-! ## Data model -/

/-- A non-nil Go `error` value; a nil error is `none : Option GoError`. -/
structure GoError where
  msg : String
deriving DecidableEq, Repr

/-- The constant `ndctlAlign uint64 = 1024 * 1024 * 1024`. -/
def ndctlAlign : Nat := 1024 * 1024 * 1024

/-- A region as the manager reads it: `r.InterleaveWays()` and
`r.MaxAvailableExtent()`, both `uint64`. -/
structure Region where
  InterleaveWays : Nat
  MaxAvailableExtent : Nat
  ways_lt : InterleaveWays < 2 ^ 64
  extent_lt : MaxAvailableExtent < 2 ^ 64

/-- A bus as the manager reads it: `bus.ActiveRegions()`. -/
structure Bus where
  ActiveRegions : List Region

/-- A namespace handle as the manager reads it: `ns.Name()`,
`ns.BlockDeviceName()` and `ns.Size()`. -/
structure Namespace where
  Name : String
  BlockDeviceName : String
  Size : Nat
deriving DecidableEq, Repr

/-- The request record `ndctl.CreateNamespaceOpts` with the four fields the
manager fills in. -/
structure CreateNamespaceOpts where
  Name : String
  Size : Nat
  Align : Nat
  Mode : String
deriving DecidableEq, Repr

/-- The record `PmemDeviceInfo` built by `namespaceToPmemInfo`. -/
structure PmemDeviceInfo where
  VolumeId : String
  Path : String
  Size : Nat
deriving DecidableEq, Repr

/-- The Go zero value `PmemDeviceInfo{}`. -/
def PmemDeviceInfo.zero : PmemDeviceInfo := ⟨"", "", 0⟩

/-- The consumed interfaces: the methods of `*ndctl.Context` used by the
manager, acting on the library state `σ`, and the zeroizer `ClearDevice`, which
is handed a `PmemDeviceInfo` and a flush flag only: it may observe the library
state but changes the device media `δ` alone. -/
structure Facility (σ δ : Type) where
  GetBuses : σ → List Bus
  GetActiveNamespaces : σ → List Namespace
  GetNamespaceByName : σ → String → Except GoError Namespace
  CreateNamespace : σ → CreateNamespaceOpts → Except GoError Namespace × σ
  DestroyNamespaceByName : σ → String → Option GoError × σ
  ClearDevice : σ → δ → PmemDeviceInfo → Bool → Option GoError × δ

/-- One call into the facility together with what it returned. -/
inductive Call where
  | GetBuses
  | GetActiveNamespaces
  | GetNamespaceByName (name : String) (res : Except GoError Namespace)
  | CreateNamespace (opts : CreateNamespaceOpts) (res : Except GoError Namespace)
  | DestroyNamespaceByName (name : String) (res : Option GoError)
  | ClearDevice (device : PmemDeviceInfo) (flush : Bool) (res : Option GoError)

/-- The state an operation runs in: the library state behind `pmem.ctx`, the
device media, and the log of facility calls made so far. -/
structure World (σ δ : Type) where
  ctx : σ
  media : δ
  log : List Call

/-- A Go `map[string]uint64`. -/
abbrev GoMap := String → Option Nat

/-- The empty map `map[string]uint64{}`. -/
def GoMap.empty : GoMap := fun _ => none

/-- The assignment `m[k] = v`. -/
def GoMap.set (m : GoMap) (k : String) (v : Nat) : GoMap :=
  fun k1 => if k1 = k then some v else m k1

/-- Modelled from the spec: the constant `ndctl.FsdaxMode` of `pkg/ndctl`,
the byte-addressable direct-access mode. -/
def FsdaxMode : String := "fsdax"

/-- Modelled from the spec: the constant `ndctl.SectorMode` of `pkg/ndctl`,
the sector-emulated mode. -/
def SectorMode : String := "sector"

/-! ## GetCapacity -/

/-- The body of the inner loop of `GetCapacity` for one region, from the
running `capacity`; `none` is the integer-divide-by-zero panic of
`available /= realalign`. -/
def capacityStep (capacity : Nat) (r : Region) : Option Nat :=
  let realalign := (ndctlAlign * r.InterleaveWays) % 2 ^ 64
  let available := r.MaxAvailableExtent
  if realalign = 0 then none
  else
    let available := available / realalign
    let available := (available * realalign) % 2 ^ 64
    if available > capacity then some available else some capacity

/-- The loop `for _, r := range bus.ActiveRegions()`. -/
def regionsLoop : Nat → List Region → Option Nat
  | capacity, [] => some capacity
  | capacity, r :: rs =>
    match capacityStep capacity r with
    | none => none
    | some c => regionsLoop c rs

/-- The loop `for _, bus := range pmem.ctx.GetBuses()`. -/
def busesLoop : Nat → List Bus → Option Nat
  | capacity, [] => some capacity
  | capacity, bus :: rest =>
    match regionsLoop capacity bus.ActiveRegions with
    | none => none
    | some c => busesLoop c rest

/-- The loop `for _, nsmod := range nsmodes { Capacity[string(nsmod)] = capacity }`. -/
def fillModes (capacity : Nat) : GoMap → List String → GoMap
  | Capacity, [] => Capacity
  | Capacity, nsmod :: rest => fillModes capacity (Capacity.set nsmod capacity) rest

/-- The method `GetCapacity`: the returned pair `(Capacity, nil)`, or `none`
when the run panics, together with the world after the call. -/
def GetCapacity {σ δ : Type} (F : Facility σ δ) (w : World σ δ) :
    Option (GoMap × Option GoError) × World σ δ :=
  let Capacity := GoMap.empty
  let nsmodes := [FsdaxMode, SectorMode]
  let buses := F.GetBuses w.ctx
  let w1 : World σ δ := ⟨w.ctx, w.media, w.log ++ [Call.GetBuses]⟩
  match busesLoop 0 buses with
  | none => (none, w1)
  | some capacity => (some (fillModes capacity Capacity nsmodes, none), w1)

/-! ## Namespace life cycle -/

/-- The function `namespaceToPmemInfo`. -/
def namespaceToPmemInfo (ns : Namespace) : PmemDeviceInfo :=
  ⟨ns.Name, "/dev/" ++ ns.BlockDeviceName, ns.Size⟩

/-- The error built by `fmt.Errorf` in `CreateDevice` when the name is taken. -/
def errNamespaceExists : GoError :=
  ⟨"CreateDevice: Failed: namespace with that name exists"⟩

/-- The unexported method `getDevice`: the pair `(PmemDeviceInfo, error)` and
the world after the lookup. -/
def getDevice {σ δ : Type} (F : Facility σ δ) (w : World σ δ) (volumeId : String) :
    (PmemDeviceInfo × Option GoError) × World σ δ :=
  let r := F.GetNamespaceByName w.ctx volumeId
  let w1 : World σ δ := ⟨w.ctx, w.media, w.log ++ [Call.GetNamespaceByName volumeId r]⟩
  match r with
  | .error err => ((PmemDeviceInfo.zero, some err), w1)
  | .ok ns => ((namespaceToPmemInfo ns, none), w1)

/-- The call `ClearDevice(device, flush)`: its error and the world after it. -/
def callClearDevice {σ δ : Type} (F : Facility σ δ) (w : World σ δ)
    (device : PmemDeviceInfo) (flush : Bool) : Option GoError × World σ δ :=
  let r := F.ClearDevice w.ctx w.media device flush
  (r.1, ⟨w.ctx, r.2, w.log ++ [Call.ClearDevice device flush r.1]⟩)

/-- The call `pmem.ctx.CreateNamespace(opts)`: its result and the world after it. -/
def callCreateNamespace {σ δ : Type} (F : Facility σ δ) (w : World σ δ)
    (opts : CreateNamespaceOpts) : Except GoError Namespace × World σ δ :=
  let r := F.CreateNamespace w.ctx opts
  (r.1, ⟨r.2, w.media, w.log ++ [Call.CreateNamespace opts r.1]⟩)

/-- The call `pmem.ctx.DestroyNamespaceByName(name)`: its error and the world
after it. -/
def callDestroyNamespaceByName {σ δ : Type} (F : Facility σ δ) (w : World σ δ)
    (name : String) : Option GoError × World σ δ :=
  let r := F.DestroyNamespaceByName w.ctx name
  (r.1, ⟨r.2, w.media, w.log ++ [Call.DestroyNamespaceByName name r.1]⟩)

/-- The method `CreateDevice`: the returned error and the world after the call. -/
def CreateDevice {σ δ : Type} (F : Facility σ δ) (w : World σ δ)
    (volumeId : String) (size : Nat) (nsmode : String) : Option GoError × World σ δ :=
  match getDevice F w volumeId with
  | ((_, none), w1) => (some errNamespaceExists, w1)
  | ((_, some _), w1) =>
    let size := (size + ndctlAlign) % 2 ^ 64
    match callCreateNamespace F w1 ⟨volumeId, size, ndctlAlign, nsmode⟩ with
    | (.error err, w2) => (some err, w2)
    | (.ok _, w2) =>
      match getDevice F w2 volumeId with
      | ((_, some err), w3) => (some err, w3)
      | ((device, none), w3) =>
        match callClearDevice F w3 device false with
        | (some err, w4) => (some err, w4)
        | (none, w4) => (none, w4)

/-- The method `DeleteDevice`: the returned error and the world after the call. -/
def DeleteDevice {σ δ : Type} (F : Facility σ δ) (w : World σ δ)
    (volumeId : String) (flush : Bool) : Option GoError × World σ δ :=
  match getDevice F w volumeId with
  | ((_, some err), w1) => (some err, w1)
  | ((device, none), w1) =>
    match callClearDevice F w1 device flush with
    | (some err, w2) => (some err, w2)
    | (none, w2) => callDestroyNamespaceByName F w2 volumeId

/-- The method `FlushDeviceData`: the returned error and the world after the
call. -/
def FlushDeviceData {σ δ : Type} (F : Facility σ δ) (w : World σ δ)
    (volumeId : String) : Option GoError × World σ δ :=
  match getDevice F w volumeId with
  | ((_, some err), w1) => (some err, w1)
  | ((device, none), w1) => callClearDevice F w1 device true

/-- The method `GetDevice`. -/
def GetDevice {σ δ : Type} (F : Facility σ δ) (w : World σ δ) (volumeId : String) :
    (PmemDeviceInfo × Option GoError) × World σ δ :=
  getDevice F w volumeId

/-- The method `ListDevices`: the pair `(devices, nil)` and the world after the
call. -/
def ListDevices {σ δ : Type} (F : Facility σ δ) (w : World σ δ) :
    (List PmemDeviceInfo × Option GoError) × World σ δ :=
  let devices := (F.GetActiveNamespaces w.ctx).foldl
    (fun devices ns => devices ++ [namespaceToPmemInfo ns]) []
  ((devices, none), ⟨w.ctx, w.media, w.log ++ [Call.GetActiveNamespaces]⟩)

/-! ## Start-up guard -/

/-- The fields of a mount table entry (`mount.MountPoint`) the constructor
reads. -/
structure MountPoint where
  Device : String
  Path : String
  Opts : List String
deriving DecidableEq, Repr

/-- The manager value `pmemNdctl`. -/
structure pmemNdctl (σ : Type) where
  ctx : σ

/-- The error returned when `/sys` is mounted read-only. -/
def errSysReadOnly : GoError :=
  ⟨"FATAL: /sys mounted read-only, can not operate\n"⟩

/-- The loop `for _, opt := range mounts[i].Opts`: the error it returns from
the constructor with, or `none` when it runs to its end. -/
def checkOpts : List String → Option GoError
  | [] => none
  | opt :: rest =>
    if opt = "rw" then checkOpts rest
    else if opt = "ro" then some errSysReadOnly
    else checkOpts rest

/-- The loop `for i := range mounts`, left by `break` after the first entry
with device `sysfs` and path `/sys`. -/
def checkMounts : List MountPoint → Option GoError
  | [] => none
  | m :: rest =>
    if m.Device = "sysfs" ∧ m.Path = "/sys" then checkOpts m.Opts
    else checkMounts rest

/-- The constructor `NewPmemDeviceManagerNdctl`, from the result of
`ndctl.NewContext()` and the mount list read by `mounter.List()` (whose error
the source drops): the pair `(manager, error)`. -/
def NewPmemDeviceManagerNdctl {σ : Type} (newContext : Except GoError σ)
    (mounts : List MountPoint) : Option (pmemNdctl σ) × Option GoError :=
  match newContext with
  | .error err => (none, some ⟨"Failed to initialize pmem context: " ++ err.msg⟩)
  | .ok ctx =>
    match checkMounts mounts with
    | some err => (none, some err)
    | none => (some ⟨ctx⟩, none)

/-! ## Reading the call log -/

/-- The create-namespace requests in a stretch of the call log, in order. -/
def createRequests : List Call → List CreateNamespaceOpts
  | [] => []
  | Call.CreateNamespace opts _ :: rest => opts :: createRequests rest
  | _ :: rest => createRequests rest

/-- The zeroizer invocations (device, flush) in a stretch of the call log. -/
def clearCalls : List Call → List (PmemDeviceInfo × Bool)
  | [] => []
  | Call.ClearDevice device flush _ :: rest => (device, flush) :: clearCalls rest
  | _ :: rest => clearCalls rest

/-- The destroy-by-name requests in a stretch of the call log. -/
def destroyCalls : List Call → List String
  | [] => []
  | Call.DestroyNamespaceByName name _ :: rest => name :: destroyCalls rest
  | _ :: rest => destroyCalls rest

/-! ## The capacity the specification describes -/

/-- All regions of all buses, in enumeration order. -/
def allRegions : List Bus → List Region
  | [] => []
  | bus :: rest => bus.ActiveRegions ++ allRegions rest

/-- The floor-alignment of a region in unbounded arithmetic:
`floor(maxAvailableExtent / (2^30 * w)) * (2^30 * w)`. -/
def alignedExtent (r : Region) : Nat :=
  r.MaxAvailableExtent / (2 ^ 30 * r.InterleaveWays) * (2 ^ 30 * r.InterleaveWays)

/-- The maximum of the floor-alignments over all regions on all buses, `0`
when there is no region. -/
def maxAlignedExtent (buses : List Bus) : Nat :=
  ((allRegions buses).map alignedExtent).foldr max 0

/-! ## An in-memory facility -/

/-- The state of the in-memory library: the topology, the active namespaces, the
block device names still free, and the error, if any, allocations fail with. -/
structure FakeCtx where
  buses : List Bus
  namespaces : List Namespace
  freeDevices : List String
  createError : Option GoError

/-- The state of the in-memory zeroizer: the error, if any, it fails with, and
the (path, flush) pairs it has cleared. -/
structure FakeMedia where
  clearError : Option GoError
  cleared : List (String × Bool)

/-- Modelled from the spec: the hardware-control library (`pkg/ndctl`) and the
zeroizer (`ClearDevice`) are not part of the source file; this is an in-memory
instance of the consumed interface (enumerate buses, regions and namespaces,
create a namespace given name, size, alignment and mode, destroy a namespace by
name, clear a device), used to run the operations on concrete inputs. -/
def fakeFacility : Facility FakeCtx FakeMedia where
  GetBuses := fun s => s.buses
  GetActiveNamespaces := fun s => s.namespaces
  GetNamespaceByName := fun s name =>
    match s.namespaces.find? (fun ns => ns.Name = name) with
    | some ns => .ok ns
    | none => .error ⟨"namespace not found"⟩
  CreateNamespace := fun s opts =>
    match s.createError with
    | some err => (.error err, s)
    | none =>
      match s.freeDevices with
      | [] => (.error ⟨"no free block device"⟩, s)
      | blockDevice :: rest =>
        let ns : Namespace := ⟨opts.Name, blockDevice, opts.Size⟩
        (.ok ns, ⟨s.buses, s.namespaces ++ [ns], rest, s.createError⟩)
  DestroyNamespaceByName := fun s name =>
    if s.namespaces.any (fun ns => ns.Name = name) then
      (none, ⟨s.buses, s.namespaces.filter (fun ns => ¬ ns.Name = name),
        s.freeDevices ++ (s.namespaces.filter (fun ns => ns.Name = name)).map
          (fun ns => ns.BlockDeviceName),
        s.createError⟩)
    else (some ⟨"namespace not found"⟩, s)
  ClearDevice := fun _ m device flush =>
    match m.clearError with
    | some err => (some err, m)
    | none => (none, ⟨m.clearError, m.cleared ++ [(device.Path, flush)]⟩)

/-- A region of interleave width 2 with 10 GiB available. -/
def region2x10G : Region := ⟨2, 10 * 2 ^ 30, by norm_num, by norm_num⟩

/-- A region whose interleave width makes `ndctlAlign * w` exceed 64 bits. -/
def regionWide : Region := ⟨2 ^ 34 + 1, 2 ^ 30, by norm_num, by norm_num⟩

/-- An in-memory world with the given topology, namespaces and armed failures;
the free block devices are those of `pmem0` to `pmem3` no namespace sits on. -/
def fakeWorld (buses : List Bus) (namespaces : List Namespace)
    (createError clearError : Option GoError) : World FakeCtx FakeMedia :=
  ⟨⟨buses, namespaces,
      ["pmem0", "pmem1", "pmem2", "pmem3"].filter
        (fun blockDevice => !(namespaces.any (fun ns => ns.BlockDeviceName = blockDevice))),
      createError⟩,
    ⟨clearError, []⟩, []⟩


/-! ## Capacity: auxiliary facts -/

theorem ndctlAlign_eq : ndctlAlign = 2 ^ 30 := by
  norm_num [ndctlAlign]

theorem capacityStep_unfold (c : Nat) (r : Region) :
    capacityStep c r =
      if (ndctlAlign * r.InterleaveWays) % 2 ^ 64 = 0 then none
      else some (max c (r.MaxAvailableExtent / ((ndctlAlign * r.InterleaveWays) % 2 ^ 64)
        * ((ndctlAlign * r.InterleaveWays) % 2 ^ 64))) := by
  unfold capacityStep
  dsimp only
  by_cases h0 : (ndctlAlign * r.InterleaveWays) % 2 ^ 64 = 0
  · rw [if_pos h0, if_pos h0]
  · rw [if_neg h0, if_neg h0]
    have hle : r.MaxAvailableExtent / ((ndctlAlign * r.InterleaveWays) % 2 ^ 64)
        * ((ndctlAlign * r.InterleaveWays) % 2 ^ 64) ≤ r.MaxAvailableExtent :=
      Nat.div_mul_le_self _ _
    rw [Nat.mod_eq_of_lt (lt_of_le_of_lt hle r.extent_lt)]
    by_cases h : r.MaxAvailableExtent / ((ndctlAlign * r.InterleaveWays) % 2 ^ 64)
        * ((ndctlAlign * r.InterleaveWays) % 2 ^ 64) > c
    · rw [if_pos h, max_eq_right (le_of_lt h)]
    · rw [if_neg h, max_eq_left (not_lt.mp h)]

theorem capacityStep_eq_max (c : Nat) (r : Region) (hpos : 0 < r.InterleaveWays)
    (hlt : 2 ^ 30 * r.InterleaveWays < 2 ^ 64) :
    capacityStep c r = some (max c (alignedExtent r)) := by
  have hra : (ndctlAlign * r.InterleaveWays) % 2 ^ 64 = 2 ^ 30 * r.InterleaveWays := by
    rw [ndctlAlign_eq]; exact Nat.mod_eq_of_lt hlt
  have hne : 2 ^ 30 * r.InterleaveWays ≠ 0 := by positivity
  rw [capacityStep_unfold, hra, if_neg hne]
  rfl

theorem foldr_max_append (xs ys : List Nat) :
    (xs ++ ys).foldr max 0 = max (xs.foldr max 0) (ys.foldr max 0) := by
  induction xs with
  | nil => simp
  | cons x xs ih => simp [ih, max_assoc]

theorem regionsLoop_append (c : Nat) (xs ys : List Region) :
    regionsLoop c (xs ++ ys) = (regionsLoop c xs).bind (fun c1 => regionsLoop c1 ys) := by
  induction xs generalizing c with
  | nil => simp [regionsLoop]
  | cons x xs ih =>
    simp only [List.cons_append, regionsLoop]
    cases capacityStep c x with
    | none => simp
    | some c1 => simpa using ih c1

theorem busesLoop_eq_regionsLoop (c : Nat) (buses : List Bus) :
    busesLoop c buses = regionsLoop c (allRegions buses) := by
  induction buses generalizing c with
  | nil => simp [busesLoop, allRegions, regionsLoop]
  | cons b bs ih =>
    simp only [busesLoop, allRegions, regionsLoop_append]
    cases regionsLoop c b.ActiveRegions with
    | none => simp
    | some c1 => simpa using ih c1

theorem mem_allRegions (buses : List Bus) (r : Region) :
    r ∈ allRegions buses ↔ ∃ bus ∈ buses, r ∈ bus.ActiveRegions := by
  induction buses with
  | nil => simp [allRegions]
  | cons b bs ih => simp [allRegions, ih]

theorem regionsLoop_eq_max (c : Nat) (rs : List Region)
    (h : ∀ r ∈ rs, 0 < r.InterleaveWays ∧ 2 ^ 30 * r.InterleaveWays < 2 ^ 64) :
    regionsLoop c rs = some (max c ((rs.map alignedExtent).foldr max 0)) := by
  induction rs generalizing c with
  | nil => simp [regionsLoop]
  | cons r rs ih =>
    have hr := h r (List.mem_cons_self r rs)
    have hrs : ∀ x ∈ rs, 0 < x.InterleaveWays ∧ 2 ^ 30 * x.InterleaveWays < 2 ^ 64 :=
      fun x hx => h x (List.mem_cons_of_mem r hx)
    simp only [regionsLoop, capacityStep_eq_max c r hr.1 hr.2, ih _ hrs, List.map_cons,
      List.foldr_cons, max_assoc]

theorem fillModes_modes (c : Nat) (k : String) :
    fillModes c GoMap.empty [FsdaxMode, SectorMode] k
      = if k = FsdaxMode ∨ k = SectorMode then some c else none := by
  simp only [fillModes, GoMap.set, GoMap.empty]
  by_cases h1 : k = SectorMode
  · simp [h1]
  · by_cases h2 : k = FsdaxMode
    · simp [h2]
    · simp [h1, h2]

theorem capacityStep_zero_of_some (c c1 : Nat) (r : Region) (h : capacityStep c r = some c1) :
    ∃ a, capacityStep 0 r = some a ∧ c1 = max c a := by
  rw [capacityStep_unfold] at h
  rw [capacityStep_unfold]
  by_cases h0 : (ndctlAlign * r.InterleaveWays) % 2 ^ 64 = 0
  · rw [if_pos h0] at h
    cases h
  · rw [if_neg h0] at h
    rw [if_neg h0]
    refine ⟨_, rfl, ?_⟩
    rw [Nat.zero_max]
    exact (Option.some.inj h).symm

theorem capacityStep_zero_bounds (r : Region) (a : Nat) (h : capacityStep 0 r = some a) :
    (ndctlAlign * r.InterleaveWays) % 2 ^ 64 ≠ 0 ∧
      a = r.MaxAvailableExtent / ((ndctlAlign * r.InterleaveWays) % 2 ^ 64)
        * ((ndctlAlign * r.InterleaveWays) % 2 ^ 64) ∧
      a ≤ r.MaxAvailableExtent ∧
      (2 ^ 30 * r.InterleaveWays < 2 ^ 64 →
        a = alignedExtent r ∧ 2 ^ 30 * r.InterleaveWays ∣ a) := by
  rw [capacityStep_unfold] at h
  by_cases h0 : (ndctlAlign * r.InterleaveWays) % 2 ^ 64 = 0
  · rw [if_pos h0] at h
    cases h
  · rw [if_neg h0, Nat.zero_max] at h
    have ha := (Option.some.inj h).symm
    refine ⟨h0, ha, ha ▸ Nat.div_mul_le_self _ _, fun hlt => ?_⟩
    have hra : (ndctlAlign * r.InterleaveWays) % 2 ^ 64 = 2 ^ 30 * r.InterleaveWays := by
      rw [ndctlAlign_eq]; exact Nat.mod_eq_of_lt hlt
    rw [hra] at ha
    exact ⟨ha, ha ▸ Nat.dvd_mul_left _ _⟩

theorem regionsLoop_produced (c c1 : Nat) (rs : List Region) (h : regionsLoop c rs = some c1) :
    (c1 = c ∨ ∃ r ∈ rs, capacityStep 0 r = some c1) ∧ c ≤ c1 ∧
      ∀ r ∈ rs, ∃ a, capacityStep 0 r = some a ∧ a ≤ c1 := by
  induction rs generalizing c with
  | nil =>
    simp only [regionsLoop] at h
    have := Option.some.inj h
    simp [this]
  | cons r rs ih =>
    simp only [regionsLoop] at h
    cases hs : capacityStep c r with
    | none => simp [hs] at h
    | some c2 =>
      simp only [hs] at h
      obtain ⟨a, ha0, hmax⟩ := capacityStep_zero_of_some c c2 r hs
      obtain ⟨hprod, hle, hall⟩ := ih c2 h
      refine ⟨?_, ?_, ?_⟩
      · rcases hprod with heq | ⟨x, hx, hxs⟩
        · by_cases hca : a ≤ c
          · left; rw [heq, hmax]; exact max_eq_left hca
          · right
            refine ⟨r, List.mem_cons_self r rs, ?_⟩
            have : c1 = a := by rw [heq, hmax]; exact max_eq_right (by omega)
            rw [this]; exact ha0
        · exact Or.inr ⟨x, List.mem_cons_of_mem r hx, hxs⟩
      · have : c ≤ c2 := by rw [hmax]; exact le_max_left c a
        omega
      · intro x hx
        rcases List.mem_cons.mp hx with rfl | hx
        · refine ⟨a, ha0, ?_⟩
          have : a ≤ c2 := by rw [hmax]; exact le_max_right c a
          omega
        · exact hall x hx

theorem GetCapacity_result {σ δ : Type} (F : Facility σ δ) (w : World σ δ) :
    (GetCapacity F w).1 = (regionsLoop 0 (allRegions (F.GetBuses w.ctx))).map
      (fun capacity => (fillModes capacity GoMap.empty [FsdaxMode, SectorMode], none)) := by
  unfold GetCapacity
  dsimp only
  rw [busesLoop_eq_regionsLoop]
  cases regionsLoop 0 (allRegions (F.GetBuses w.ctx)) <;> rfl

/-! ## Capacity: the claims -/

/-- C1: when every region's interleave width `w` satisfies `0 < w` and
`2^30 * w < 2^64`, `GetCapacity` returns a nil error and a map whose keys are
exactly `fsdax` and `sector`, both mapped to the maximum over all regions on all
buses of `floor(maxAvailableExtent / (2^30 * w)) * (2^30 * w)`, which is `0`
when there is no region. -/
theorem GetCapacity_max_aligned {σ δ : Type} (F : Facility σ δ) (w : World σ δ)
    (h : ∀ bus ∈ F.GetBuses w.ctx, ∀ r ∈ bus.ActiveRegions,
      0 < r.InterleaveWays ∧ 2 ^ 30 * r.InterleaveWays < 2 ^ 64) :
    ∃ m : GoMap, (GetCapacity F w).1 = some (m, none) ∧
      (∀ k, m k = if k = FsdaxMode ∨ k = SectorMode
        then some (maxAlignedExtent (F.GetBuses w.ctx)) else none) ∧
      (allRegions (F.GetBuses w.ctx) = [] → maxAlignedExtent (F.GetBuses w.ctx) = 0) := by
  have hall : ∀ r ∈ allRegions (F.GetBuses w.ctx),
      0 < r.InterleaveWays ∧ 2 ^ 30 * r.InterleaveWays < 2 ^ 64 := by
    intro r hr
    obtain ⟨bus, hbus, hrb⟩ := (mem_allRegions _ r).mp hr
    exact h bus hbus r hrb
  refine ⟨fillModes (maxAlignedExtent (F.GetBuses w.ctx)) GoMap.empty [FsdaxMode, SectorMode],
    ?_, fun k => fillModes_modes _ k, ?_⟩
  · rw [GetCapacity_result, regionsLoop_eq_max 0 _ hall, Nat.zero_max]
    rfl
  · intro hnil
    simp [maxAlignedExtent, hnil]

/-- C1, at one bus with one region of interleave width 2 and 10 GiB available:
both modes report 10 GiB. -/
theorem GetCapacity_max_aligned_witness :
    (∀ bus ∈ fakeFacility.GetBuses (fakeWorld [⟨[region2x10G]⟩] [] none none).ctx,
      ∀ r ∈ bus.ActiveRegions, 0 < r.InterleaveWays ∧ 2 ^ 30 * r.InterleaveWays < 2 ^ 64) ∧
    ∃ m : GoMap,
      (GetCapacity fakeFacility (fakeWorld [⟨[region2x10G]⟩] [] none none)).1 = some (m, none) ∧
      m FsdaxMode = some (10 * 2 ^ 30) ∧ m SectorMode = some (10 * 2 ^ 30) ∧
      m "raw" = none := by
  have hyp : ∀ bus ∈ fakeFacility.GetBuses (fakeWorld [⟨[region2x10G]⟩] [] none none).ctx,
      ∀ r ∈ bus.ActiveRegions, 0 < r.InterleaveWays ∧ 2 ^ 30 * r.InterleaveWays < 2 ^ 64 := by
    intro bus hbus r hr
    simp only [fakeFacility, fakeWorld, List.mem_singleton] at hbus
    subst hbus
    simp only [List.mem_singleton] at hr
    subst hr
    simp [region2x10G]
  obtain ⟨m, hm, hk, _⟩ :=
    GetCapacity_max_aligned fakeFacility (fakeWorld [⟨[region2x10G]⟩] [] none none) hyp
  refine ⟨hyp, m, hm, ?_, ?_, ?_⟩
  · rw [hk]; decide
  · rw [hk]; decide
  · rw [hk]; decide

/-- C2, as stated, fails: a single region of interleave width `2^34 + 1` with
`2^30` bytes available makes `GetCapacity` report `2^30` for both modes, which
is not a multiple of `2^30 * (2^34 + 1)`. -/
theorem GetCapacity_wide_interleave_counterexample :
    allRegions (fakeFacility.GetBuses (fakeWorld [⟨[regionWide]⟩] [] none none).ctx)
        = [regionWide] ∧
      (GetCapacity fakeFacility (fakeWorld [⟨[regionWide]⟩] [] none none)).1.map
        (fun res => (res.1 FsdaxMode, res.1 SectorMode, res.2))
        = some (some (2 ^ 30), some (2 ^ 30), none) ∧
      ¬ (2 ^ 30 * regionWide.InterleaveWays ∣ 2 ^ 30) := by
  refine ⟨rfl, by decide, by decide⟩

/-- C2, amended: whenever `GetCapacity` returns, every value `v` of the result
map is `0` with no region in the topology, or comes from a region of the
topology: the region's 64-bit product `a = (2^30 * w) mod 2^64` is not zero and
`v = floor(maxAvailableExtent / a) * a`; `v` is never larger than that region's
maximum available extent; and whenever `2^30 * w < 2^64`, `v` is that region's
floor-alignment `floor(maxAvailableExtent / (2^30 * w)) * (2^30 * w)`, an exact
multiple of `2^30 * w`. -/
theorem GetCapacity_values_aligned {σ δ : Type} (F : Facility σ δ) (w : World σ δ)
    (m : GoMap) (err : Option GoError) (k : String) (v : Nat)
    (hret : (GetCapacity F w).1 = some (m, err)) (hk : m k = some v) :
    (∃ bus ∈ F.GetBuses w.ctx, ∃ r ∈ bus.ActiveRegions,
        (ndctlAlign * r.InterleaveWays) % 2 ^ 64 ≠ 0 ∧
        v = r.MaxAvailableExtent / ((ndctlAlign * r.InterleaveWays) % 2 ^ 64)
          * ((ndctlAlign * r.InterleaveWays) % 2 ^ 64) ∧
        v ≤ r.MaxAvailableExtent ∧
        (2 ^ 30 * r.InterleaveWays < 2 ^ 64 →
          v = alignedExtent r ∧ 2 ^ 30 * r.InterleaveWays ∣ v)) ∨
      (v = 0 ∧ ∀ bus ∈ F.GetBuses w.ctx, bus.ActiveRegions = []) := by
  rw [GetCapacity_result] at hret
  cases hloop : regionsLoop 0 (allRegions (F.GetBuses w.ctx)) with
  | none => rw [hloop] at hret; cases hret
  | some c =>
    rw [hloop] at hret
    have hm : m = fillModes c GoMap.empty [FsdaxMode, SectorMode] :=
      (congrArg Prod.fst (Option.some.inj hret)).symm
    have hv : v = c := by
      rw [hm, fillModes_modes] at hk
      by_cases hkk : k = FsdaxMode ∨ k = SectorMode
      · rw [if_pos hkk] at hk; exact (Option.some.inj hk).symm
      · rw [if_neg hkk] at hk; cases hk
    subst hv
    obtain ⟨hprod, _, hall⟩ := regionsLoop_produced 0 v _ hloop
    have produced : ∀ r ∈ allRegions (F.GetBuses w.ctx), capacityStep 0 r = some v →
        ∃ bus ∈ F.GetBuses w.ctx, ∃ r ∈ bus.ActiveRegions,
          (ndctlAlign * r.InterleaveWays) % 2 ^ 64 ≠ 0 ∧
          v = r.MaxAvailableExtent / ((ndctlAlign * r.InterleaveWays) % 2 ^ 64)
            * ((ndctlAlign * r.InterleaveWays) % 2 ^ 64) ∧
          v ≤ r.MaxAvailableExtent ∧
          (2 ^ 30 * r.InterleaveWays < 2 ^ 64 →
            v = alignedExtent r ∧ 2 ^ 30 * r.InterleaveWays ∣ v) := by
      intro r hr hstep
      obtain ⟨bus, hbus, hrb⟩ := (mem_allRegions _ r).mp hr
      exact ⟨bus, hbus, r, hrb, capacityStep_zero_bounds r v hstep⟩
    rcases hprod with hzero | ⟨r, hr, hstep⟩
    · cases hregs : allRegions (F.GetBuses w.ctx) with
      | nil =>
        right
        refine ⟨hzero, fun bus hbus => ?_⟩
        cases hb : bus.ActiveRegions with
        | nil => rfl
        | cons x xs =>
          have hx : x ∈ allRegions (F.GetBuses w.ctx) :=
            (mem_allRegions _ x).mpr ⟨bus, hbus, by rw [hb]; exact List.mem_cons_self x xs⟩
          rw [hregs] at hx
          cases hx
      | cons x xs =>
        left
        have hx : x ∈ allRegions (F.GetBuses w.ctx) := by
          rw [hregs]; exact List.mem_cons_self x xs
        obtain ⟨a, ha, hle⟩ := hall x hx
        have ha0 : a = v := by omega
        exact produced x hx (ha0 ▸ ha)
    · exact Or.inl (produced r hr hstep)

/-- C2, amended, at a bus with a region whose `2^30 * w` exceeds 64 bits and a
2-way region holding 10 GiB: the reported 10 GiB comes from a region of the
bus. -/
theorem GetCapacity_values_aligned_witness :
    ∃ m : GoMap,
      (GetCapacity fakeFacility
        (fakeWorld [⟨[regionWide, region2x10G]⟩] [] none none)).1 = some (m, none) ∧
      m FsdaxMode = some (10 * 2 ^ 30) ∧
      ((∃ bus ∈ fakeFacility.GetBuses
          (fakeWorld [⟨[regionWide, region2x10G]⟩] [] none none).ctx,
          ∃ r ∈ bus.ActiveRegions,
            (ndctlAlign * r.InterleaveWays) % 2 ^ 64 ≠ 0 ∧
            10 * 2 ^ 30 = r.MaxAvailableExtent / ((ndctlAlign * r.InterleaveWays) % 2 ^ 64)
              * ((ndctlAlign * r.InterleaveWays) % 2 ^ 64) ∧
            10 * 2 ^ 30 ≤ r.MaxAvailableExtent ∧
            (2 ^ 30 * r.InterleaveWays < 2 ^ 64 →
              10 * 2 ^ 30 = alignedExtent r ∧ 2 ^ 30 * r.InterleaveWays ∣ 10 * 2 ^ 30)) ∨
        (10 * 2 ^ 30 = 0 ∧ ∀ bus ∈ fakeFacility.GetBuses
          (fakeWorld [⟨[regionWide, region2x10G]⟩] [] none none).ctx,
          bus.ActiveRegions = [])) :=
  ⟨fillModes (10 * 2 ^ 30) GoMap.empty [FsdaxMode, SectorMode], by rfl, by decide,
    GetCapacity_values_aligned fakeFacility
      (fakeWorld [⟨[regionWide, region2x10G]⟩] [] none none)
      (fillModes (10 * 2 ^ 30) GoMap.empty [FsdaxMode, SectorMode]) none FsdaxMode
      (10 * 2 ^ 30) (by rfl) (by decide)⟩

/-! ## Namespace life cycle: auxiliary facts -/

theorem getDevice_ok {σ δ : Type} (F : Facility σ δ) (w : World σ δ) (volumeId : String)
    (ns : Namespace) (h : F.GetNamespaceByName w.ctx volumeId = .ok ns) :
    getDevice F w volumeId = ((namespaceToPmemInfo ns, none),
      ⟨w.ctx, w.media, w.log ++ [Call.GetNamespaceByName volumeId (.ok ns)]⟩) := by
  simp only [getDevice, h]

theorem getDevice_error {σ δ : Type} (F : Facility σ δ) (w : World σ δ) (volumeId : String)
    (e : GoError) (h : F.GetNamespaceByName w.ctx volumeId = .error e) :
    getDevice F w volumeId = ((PmemDeviceInfo.zero, some e),
      ⟨w.ctx, w.media, w.log ++ [Call.GetNamespaceByName volumeId (.error e)]⟩) := by
  simp only [getDevice, h]

theorem CreateDevice_of_active {σ δ : Type} (F : Facility σ δ) (w : World σ δ)
    (volumeId : String) (size : Nat) (nsmode : String) (ns : Namespace)
    (h : F.GetNamespaceByName w.ctx volumeId = .ok ns) :
    CreateDevice F w volumeId size nsmode = (some errNamespaceExists,
      ⟨w.ctx, w.media, w.log ++ [Call.GetNamespaceByName volumeId (.ok ns)]⟩) := by
  simp only [CreateDevice, getDevice_ok F w volumeId ns h]

/-- The four facility calls of a `CreateDevice` that goes all the way to the
zeroizer, and the world it ends in. -/
theorem CreateDevice_full_run {σ δ : Type} (F : Facility σ δ) (w : World σ δ)
    (volumeId : String) (size : Nat) (nsmode : String) (e0 : GoError) (ns ns1 : Namespace)
    (h0 : F.GetNamespaceByName w.ctx volumeId = .error e0)
    (h1 : (F.CreateNamespace w.ctx
      ⟨volumeId, (size + ndctlAlign) % 2 ^ 64, ndctlAlign, nsmode⟩).1 = .ok ns)
    (h2 : F.GetNamespaceByName (F.CreateNamespace w.ctx
      ⟨volumeId, (size + ndctlAlign) % 2 ^ 64, ndctlAlign, nsmode⟩).2 volumeId = .ok ns1) :
    CreateDevice F w volumeId size nsmode =
      ((F.ClearDevice (F.CreateNamespace w.ctx
          ⟨volumeId, (size + ndctlAlign) % 2 ^ 64, ndctlAlign, nsmode⟩).2 w.media
          (namespaceToPmemInfo ns1) false).1,
        ⟨(F.CreateNamespace w.ctx
            ⟨volumeId, (size + ndctlAlign) % 2 ^ 64, ndctlAlign, nsmode⟩).2,
          (F.ClearDevice (F.CreateNamespace w.ctx
            ⟨volumeId, (size + ndctlAlign) % 2 ^ 64, ndctlAlign, nsmode⟩).2 w.media
            (namespaceToPmemInfo ns1) false).2,
          w.log ++ [Call.GetNamespaceByName volumeId (.error e0),
            Call.CreateNamespace ⟨volumeId, (size + ndctlAlign) % 2 ^ 64, ndctlAlign, nsmode⟩
              (.ok ns),
            Call.GetNamespaceByName volumeId (.ok ns1),
            Call.ClearDevice (namespaceToPmemInfo ns1) false
              (F.ClearDevice (F.CreateNamespace w.ctx
                ⟨volumeId, (size + ndctlAlign) % 2 ^ 64, ndctlAlign, nsmode⟩).2 w.media
                (namespaceToPmemInfo ns1) false).1]⟩) := by
  simp only [CreateDevice, getDevice_error F w volumeId e0 h0, callCreateNamespace, h1]
  rw [getDevice_ok F _ volumeId ns1 h2]
  simp only [callClearDevice, List.append_assoc, List.singleton_append]
  cases (F.ClearDevice (F.CreateNamespace w.ctx
    ⟨volumeId, (size + ndctlAlign) % 2 ^ 64, ndctlAlign, nsmode⟩).2 w.media
    (namespaceToPmemInfo ns1) false).1 <;> rfl

theorem CreateDevice_create_error {σ δ : Type} (F : Facility σ δ) (w : World σ δ)
    (volumeId : String) (size : Nat) (nsmode : String) (e0 e : GoError)
    (h0 : F.GetNamespaceByName w.ctx volumeId = .error e0)
    (h1 : (F.CreateNamespace w.ctx
      ⟨volumeId, (size + ndctlAlign) % 2 ^ 64, ndctlAlign, nsmode⟩).1 = .error e) :
    CreateDevice F w volumeId size nsmode = (some e,
      ⟨(F.CreateNamespace w.ctx
          ⟨volumeId, (size + ndctlAlign) % 2 ^ 64, ndctlAlign, nsmode⟩).2, w.media,
        w.log ++ [Call.GetNamespaceByName volumeId (.error e0),
          Call.CreateNamespace ⟨volumeId, (size + ndctlAlign) % 2 ^ 64, ndctlAlign, nsmode⟩
            (.error e)]⟩) := by
  simp only [CreateDevice, getDevice_error F w volumeId e0 h0, callCreateNamespace, h1,
    List.append_assoc, List.singleton_append]

theorem CreateDevice_resolve_error {σ δ : Type} (F : Facility σ δ) (w : World σ δ)
    (volumeId : String) (size : Nat) (nsmode : String) (e0 e : GoError) (ns : Namespace)
    (h0 : F.GetNamespaceByName w.ctx volumeId = .error e0)
    (h1 : (F.CreateNamespace w.ctx
      ⟨volumeId, (size + ndctlAlign) % 2 ^ 64, ndctlAlign, nsmode⟩).1 = .ok ns)
    (h2 : F.GetNamespaceByName (F.CreateNamespace w.ctx
      ⟨volumeId, (size + ndctlAlign) % 2 ^ 64, ndctlAlign, nsmode⟩).2 volumeId = .error e) :
    CreateDevice F w volumeId size nsmode = (some e,
      ⟨(F.CreateNamespace w.ctx
          ⟨volumeId, (size + ndctlAlign) % 2 ^ 64, ndctlAlign, nsmode⟩).2, w.media,
        w.log ++ [Call.GetNamespaceByName volumeId (.error e0),
          Call.CreateNamespace ⟨volumeId, (size + ndctlAlign) % 2 ^ 64, ndctlAlign, nsmode⟩
            (.ok ns),
          Call.GetNamespaceByName volumeId (.error e)]⟩) := by
  simp only [CreateDevice, getDevice_error F w volumeId e0 h0, callCreateNamespace, h1]
  rw [getDevice_error F _ volumeId e h2]
  simp only [List.append_assoc, List.singleton_append, List.cons_append, List.nil_append]

/-! ## Namespace life cycle: the claims -/

/-- C3: when a namespace named `volumeId` is active, `CreateDevice` returns the
already-exists error, its only facility call is the by-name lookup (no
create-namespace call, no zeroizer call) and the library state, hence the set
of active namespaces, is unchanged; and a `CreateDevice` with the same id right
after a successful one fails in this way, in the state the first one left. -/
theorem CreateDevice_existing_refused {σ δ : Type} (F : Facility σ δ) :
    (∀ (w : World σ δ) (volumeId : String) (size : Nat) (nsmode : String) (ns : Namespace),
      F.GetNamespaceByName w.ctx volumeId = .ok ns →
        CreateDevice F w volumeId size nsmode = (some errNamespaceExists,
          ⟨w.ctx, w.media, w.log ++ [Call.GetNamespaceByName volumeId (.ok ns)]⟩) ∧
        createRequests [Call.GetNamespaceByName volumeId (.ok ns)] = [] ∧
        clearCalls [Call.GetNamespaceByName volumeId (.ok ns)] = [] ∧
        F.GetActiveNamespaces (CreateDevice F w volumeId size nsmode).2.ctx
          = F.GetActiveNamespaces w.ctx) ∧
    (∀ (w : World σ δ) (volumeId : String) (size size2 : Nat) (nsmode nsmode2 : String),
      (CreateDevice F w volumeId size nsmode).1 = none →
        ∃ ns1 : Namespace,
          CreateDevice F (CreateDevice F w volumeId size nsmode).2 volumeId size2 nsmode2
            = (some errNamespaceExists,
              ⟨(CreateDevice F w volumeId size nsmode).2.ctx,
                (CreateDevice F w volumeId size nsmode).2.media,
                (CreateDevice F w volumeId size nsmode).2.log
                  ++ [Call.GetNamespaceByName volumeId (.ok ns1)]⟩)) := by
  constructor
  · intro w volumeId size nsmode ns h
    have hrun := CreateDevice_of_active F w volumeId size nsmode ns h
    refine ⟨hrun, rfl, rfl, ?_⟩
    rw [hrun]
  · intro w volumeId size size2 nsmode nsmode2 hok
    cases h0 : F.GetNamespaceByName w.ctx volumeId with
    | ok ns =>
      rw [CreateDevice_of_active F w volumeId size nsmode ns h0] at hok
      cases hok
    | error e0 =>
      cases h1 : (F.CreateNamespace w.ctx
          ⟨volumeId, (size + ndctlAlign) % 2 ^ 64, ndctlAlign, nsmode⟩).1 with
      | error e =>
        rw [CreateDevice_create_error F w volumeId size nsmode e0 e h0 h1] at hok
        cases hok
      | ok ns =>
        cases h2 : F.GetNamespaceByName (F.CreateNamespace w.ctx
            ⟨volumeId, (size + ndctlAlign) % 2 ^ 64, ndctlAlign, nsmode⟩).2 volumeId with
        | error e =>
          rw [CreateDevice_resolve_error F w volumeId size nsmode e0 e ns h0 h1 h2] at hok
          cases hok
        | ok ns1 =>
          refine ⟨ns1, ?_⟩
          rw [CreateDevice_full_run F w volumeId size nsmode e0 ns ns1 h0 h1 h2]
          exact CreateDevice_of_active F _ volumeId size2 nsmode2 ns1 h2

/-- C3, on the in-memory facility: creating `vol` while it is active is refused
with the world untouched but for the lookup, and creating `vol` twice in a row
from an empty world succeeds once and is then refused. -/
theorem CreateDevice_existing_refused_witness :
    (fakeFacility.GetNamespaceByName
        (fakeWorld [] [⟨"vol", "pmem0", 2 ^ 31⟩] none none).ctx "vol"
        = .ok ⟨"vol", "pmem0", 2 ^ 31⟩ ∧
      CreateDevice fakeFacility (fakeWorld [] [⟨"vol", "pmem0", 2 ^ 31⟩] none none)
        "vol" (2 ^ 30) FsdaxMode
        = (some errNamespaceExists,
          ⟨(fakeWorld [] [⟨"vol", "pmem0", 2 ^ 31⟩] none none).ctx,
            (fakeWorld [] [⟨"vol", "pmem0", 2 ^ 31⟩] none none).media,
            [Call.GetNamespaceByName "vol" (.ok ⟨"vol", "pmem0", 2 ^ 31⟩)]⟩)) ∧
    ((CreateDevice fakeFacility (fakeWorld [] [] none none) "vol" (2 ^ 30) FsdaxMode).1 = none ∧
      ∃ ns1 : Namespace,
        (CreateDevice fakeFacility
          (CreateDevice fakeFacility (fakeWorld [] [] none none) "vol" (2 ^ 30) FsdaxMode).2
          "vol" (2 ^ 30) FsdaxMode).1 = some errNamespaceExists ∧
        fakeFacility.GetActiveNamespaces (CreateDevice fakeFacility
          (CreateDevice fakeFacility (fakeWorld [] [] none none) "vol" (2 ^ 30) FsdaxMode).2
          "vol" (2 ^ 30) FsdaxMode).2.ctx = [ns1]) := by
  refine ⟨⟨by rfl, ?_⟩, ⟨by rfl, ?_⟩⟩
  · exact ((CreateDevice_existing_refused fakeFacility).1
      (fakeWorld [] [⟨"vol", "pmem0", 2 ^ 31⟩] none none) "vol" (2 ^ 30) FsdaxMode
      ⟨"vol", "pmem0", 2 ^ 31⟩ (by rfl)).1
  · obtain ⟨ns1, h⟩ := (CreateDevice_existing_refused fakeFacility).2
      (fakeWorld [] [] none none) "vol" (2 ^ 30) (2 ^ 30) FsdaxMode FsdaxMode (by rfl)
    refine ⟨⟨"vol", "pmem0", 2 ^ 31⟩, ?_, ?_⟩
    · rw [h]
    · rw [h]; rfl

/-- C4: if `CreateDevice` returns a nil error then, during that call, the first
lookup failed, the namespace was allocated, the lookup after the allocation
resolved it to a namespace `ns1`, and the zeroizer was called, after the
allocation, on the device of `ns1` (volume id `ns1.Name()`, path
`/dev/` followed by `ns1.BlockDeviceName()`, size `ns1.Size()`) with
`flush = false` and returned nil; the call log grew by exactly these four
calls, in this order, the library state is the one the allocation left and the
media is the one the zeroizer left. -/
theorem CreateDevice_success_zeroized {σ δ : Type} (F : Facility σ δ) (w : World σ δ)
    (volumeId : String) (size : Nat) (nsmode : String)
    (hok : (CreateDevice F w volumeId size nsmode).1 = none) :
    ∃ (e0 : GoError) (ns ns1 : Namespace),
      F.GetNamespaceByName w.ctx volumeId = .error e0 ∧
      (F.CreateNamespace w.ctx ⟨volumeId, (size + ndctlAlign) % 2 ^ 64, ndctlAlign, nsmode⟩).1 = .ok ns ∧
      F.GetNamespaceByName (F.CreateNamespace w.ctx ⟨volumeId, (size + ndctlAlign) % 2 ^ 64, ndctlAlign, nsmode⟩).2 volumeId = .ok ns1 ∧
      (F.ClearDevice (F.CreateNamespace w.ctx ⟨volumeId, (size + ndctlAlign) % 2 ^ 64, ndctlAlign, nsmode⟩).2 w.media
        ⟨ns1.Name, "/dev/" ++ ns1.BlockDeviceName, ns1.Size⟩ false).1 = none ∧
      (CreateDevice F w volumeId size nsmode).2 =
        ⟨(F.CreateNamespace w.ctx ⟨volumeId, (size + ndctlAlign) % 2 ^ 64, ndctlAlign, nsmode⟩).2,
          (F.ClearDevice (F.CreateNamespace w.ctx ⟨volumeId, (size + ndctlAlign) % 2 ^ 64, ndctlAlign, nsmode⟩).2 w.media
            ⟨ns1.Name, "/dev/" ++ ns1.BlockDeviceName, ns1.Size⟩ false).2,
          w.log ++ [Call.GetNamespaceByName volumeId (.error e0),
            Call.CreateNamespace ⟨volumeId, (size + ndctlAlign) % 2 ^ 64, ndctlAlign, nsmode⟩ (.ok ns),
            Call.GetNamespaceByName volumeId (.ok ns1),
            Call.ClearDevice ⟨ns1.Name, "/dev/" ++ ns1.BlockDeviceName, ns1.Size⟩ false
              none]⟩ ∧
      clearCalls [Call.GetNamespaceByName volumeId (.error e0),
          Call.CreateNamespace ⟨volumeId, (size + ndctlAlign) % 2 ^ 64, ndctlAlign, nsmode⟩ (.ok ns),
          Call.GetNamespaceByName volumeId (.ok ns1),
          Call.ClearDevice ⟨ns1.Name, "/dev/" ++ ns1.BlockDeviceName, ns1.Size⟩ false none]
        = [(⟨ns1.Name, "/dev/" ++ ns1.BlockDeviceName, ns1.Size⟩, false)] := by
  cases h0 : F.GetNamespaceByName w.ctx volumeId with
  | ok ns =>
    rw [CreateDevice_of_active F w volumeId size nsmode ns h0] at hok
    cases hok
  | error e0 =>
    cases h1 : (F.CreateNamespace w.ctx ⟨volumeId, (size + ndctlAlign) % 2 ^ 64, ndctlAlign, nsmode⟩).1 with
    | error e =>
      rw [CreateDevice_create_error F w volumeId size nsmode e0 e h0 h1] at hok
      cases hok
    | ok ns =>
      cases h2 : F.GetNamespaceByName (F.CreateNamespace w.ctx ⟨volumeId, (size + ndctlAlign) % 2 ^ 64, ndctlAlign, nsmode⟩).2 volumeId with
      | error e =>
        rw [CreateDevice_resolve_error F w volumeId size nsmode e0 e ns h0 h1 h2] at hok
        cases hok
      | ok ns1 =>
        have hrun := CreateDevice_full_run F w volumeId size nsmode e0 ns ns1 h0 h1 h2
        simp only [namespaceToPmemInfo] at hrun
        rw [hrun] at hok
        have hclear : (F.ClearDevice (F.CreateNamespace w.ctx ⟨volumeId, (size + ndctlAlign) % 2 ^ 64, ndctlAlign, nsmode⟩).2 w.media
            ⟨ns1.Name, "/dev/" ++ ns1.BlockDeviceName, ns1.Size⟩ false).1 = none := hok
        refine ⟨e0, ns, ns1, rfl, rfl, rfl, hclear, ?_, rfl⟩
        rw [hrun, hclear]

/-- C4, on the in-memory facility with `other` active on `pmem0`: creating `vol`
succeeds, the allocation puts it on `pmem1`, and the zeroizer was called on
`/dev/pmem1`, the device of `vol`, with `flush = false` after the allocation;
both namespaces are active and the media records that one clearing. -/
theorem CreateDevice_success_zeroized_witness :
    (CreateDevice fakeFacility (fakeWorld [] [⟨"other", "pmem0", 2 ^ 31⟩] none none)
        "vol" (2 ^ 30) FsdaxMode).1 = none ∧
    ∃ (e0 : GoError) (ns ns1 : Namespace),
      (CreateDevice fakeFacility (fakeWorld [] [⟨"other", "pmem0", 2 ^ 31⟩] none none)
        "vol" (2 ^ 30) FsdaxMode).2 =
        ⟨⟨[], [⟨"other", "pmem0", 2 ^ 31⟩, ⟨"vol", "pmem1", 2 ^ 31⟩], ["pmem2", "pmem3"], none⟩,
          ⟨none, [("/dev/pmem1", false)]⟩,
          [Call.GetNamespaceByName "vol" (.error e0),
            Call.CreateNamespace ⟨"vol", 2 ^ 31, 2 ^ 30, FsdaxMode⟩ (.ok ns),
            Call.GetNamespaceByName "vol" (.ok ns1),
            Call.ClearDevice ⟨"vol", "/dev/pmem1", 2 ^ 31⟩ false none]⟩ := by
  refine ⟨by rfl, ?_⟩
  obtain ⟨e0, ns, ns1, _, _, h2, _, hworld, _⟩ :=
    CreateDevice_success_zeroized fakeFacility
      (fakeWorld [] [⟨"other", "pmem0", 2 ^ 31⟩] none none) "vol" (2 ^ 30) FsdaxMode (by rfl)
  have hns1 : ns1 = ⟨"vol", "pmem1", 2 ^ 31⟩ := by
    have h2a : fakeFacility.GetNamespaceByName (fakeFacility.CreateNamespace
        (fakeWorld [] [⟨"other", "pmem0", 2 ^ 31⟩] none none).ctx
        ⟨"vol", (2 ^ 30 + ndctlAlign) % 2 ^ 64, ndctlAlign, FsdaxMode⟩).2 "vol"
        = .ok ⟨"vol", "pmem1", 2 ^ 31⟩ := by rfl
    rw [h2a] at h2
    exact (Except.ok.inj h2).symm
  refine ⟨e0, ns, ns1, ?_⟩
  rw [hworld, hns1]
  rfl

/-- For an id that is not active and any size, the facility calls of
`CreateDevice` contain exactly one create-namespace request; it carries the id,
the 64-bit sum of the size and `ndctlAlign`, the alignment `2^30` and the given
mode. -/
theorem CreateDevice_request_fields {σ δ : Type} (F : Facility σ δ) (w : World σ δ)
    (volumeId : String) (size : Nat) (nsmode : String) (e0 : GoError)
    (h0 : F.GetNamespaceByName w.ctx volumeId = .error e0) :
    ∃ tr : List Call, (CreateDevice F w volumeId size nsmode).2.log = w.log ++ tr ∧
      createRequests tr = [⟨volumeId, (size + 2 ^ 30) % 2 ^ 64, 2 ^ 30, nsmode⟩] := by
  cases h1 : (F.CreateNamespace w.ctx ⟨volumeId, (size + ndctlAlign) % 2 ^ 64, ndctlAlign, nsmode⟩).1 with
  | error e =>
    refine ⟨_, by rw [CreateDevice_create_error F w volumeId size nsmode e0 e h0 h1], ?_⟩
    simp only [createRequests, ndctlAlign_eq]
  | ok ns =>
    cases h2 : F.GetNamespaceByName (F.CreateNamespace w.ctx ⟨volumeId, (size + ndctlAlign) % 2 ^ 64, ndctlAlign, nsmode⟩).2 volumeId with
    | error e =>
      refine ⟨_, by rw [CreateDevice_resolve_error F w volumeId size nsmode e0 e ns h0 h1 h2],
        ?_⟩
      simp only [createRequests, ndctlAlign_eq]
    | ok ns1 =>
      refine ⟨_, by rw [CreateDevice_full_run F w volumeId size nsmode e0 ns ns1 h0 h1 h2],
        ?_⟩
      simp only [createRequests, ndctlAlign_eq]

/-- C5, at the requested size `2^64 - 1` with no namespace named `vol`: the
size is a 64-bit value and the id is not active, `CreateDevice` returns nil,
and its one create-namespace request carries the size `2^30 - 1`, which is not
the sum `(2^64 - 1) + 2^30` and is less than the requested size, where the
source comment asks for `align` additional bytes. -/
theorem CreateDevice_size_wraps_at_max :
    2 ^ 64 - 1 < 2 ^ 64 ∧
      fakeFacility.GetNamespaceByName (fakeWorld [] [] none none).ctx "vol"
        = .error ⟨"namespace not found"⟩ ∧
      (CreateDevice fakeFacility (fakeWorld [] [] none none) "vol" (2 ^ 64 - 1) FsdaxMode).1
        = none ∧
      createRequests
        (CreateDevice fakeFacility (fakeWorld [] [] none none) "vol" (2 ^ 64 - 1) FsdaxMode).2.log
        = [⟨"vol", 2 ^ 30 - 1, 2 ^ 30, FsdaxMode⟩] ∧
      2 ^ 30 - 1 ≠ (2 ^ 64 - 1) + 2 ^ 30 ∧ 2 ^ 30 - 1 < 2 ^ 64 - 1 := by
  refine ⟨by decide, by rfl, by rfl, by rfl, by decide, by decide⟩

/-- C6: for an active id, resolved by the lookup to the namespace `ns`, and any
flush flag, `DeleteDevice` calls the zeroizer on the device of `ns` (volume id
`ns.Name()`, path `/dev/` followed by `ns.BlockDeviceName()`, size `ns.Size()`)
with the caller's flush value before any destroy call; if the zeroizer fails,
that error is returned, no destroy call is made and the library state is
unchanged, so the namespace is still active; if the zeroizer succeeds,
destroy-namespace-by-name is called with the id and its result is returned. -/
theorem DeleteDevice_clears_then_destroys {σ δ : Type} (F : Facility σ δ) (w : World σ δ)
    (volumeId : String) (flush : Bool) (ns : Namespace)
    (h : F.GetNamespaceByName w.ctx volumeId = .ok ns) :
    (∀ e : GoError,
      (F.ClearDevice w.ctx w.media
        ⟨ns.Name, "/dev/" ++ ns.BlockDeviceName, ns.Size⟩ flush).1 = some e →
        DeleteDevice F w volumeId flush = (some e,
          ⟨w.ctx,
            (F.ClearDevice w.ctx w.media
              ⟨ns.Name, "/dev/" ++ ns.BlockDeviceName, ns.Size⟩ flush).2,
            w.log ++ [Call.GetNamespaceByName volumeId (.ok ns),
              Call.ClearDevice ⟨ns.Name, "/dev/" ++ ns.BlockDeviceName, ns.Size⟩ flush
                (some e)]⟩) ∧
        destroyCalls [Call.GetNamespaceByName volumeId (.ok ns),
          Call.ClearDevice ⟨ns.Name, "/dev/" ++ ns.BlockDeviceName, ns.Size⟩ flush
            (some e)] = [] ∧
        F.GetNamespaceByName (DeleteDevice F w volumeId flush).2.ctx volumeId = .ok ns ∧
        F.GetActiveNamespaces (DeleteDevice F w volumeId flush).2.ctx
          = F.GetActiveNamespaces w.ctx) ∧
    ((F.ClearDevice w.ctx w.media
        ⟨ns.Name, "/dev/" ++ ns.BlockDeviceName, ns.Size⟩ flush).1 = none →
      DeleteDevice F w volumeId flush = ((F.DestroyNamespaceByName w.ctx volumeId).1,
        ⟨(F.DestroyNamespaceByName w.ctx volumeId).2,
          (F.ClearDevice w.ctx w.media
            ⟨ns.Name, "/dev/" ++ ns.BlockDeviceName, ns.Size⟩ flush).2,
          w.log ++ [Call.GetNamespaceByName volumeId (.ok ns),
            Call.ClearDevice ⟨ns.Name, "/dev/" ++ ns.BlockDeviceName, ns.Size⟩ flush none,
            Call.DestroyNamespaceByName volumeId
              (F.DestroyNamespaceByName w.ctx volumeId).1]⟩) ∧
      clearCalls [Call.GetNamespaceByName volumeId (.ok ns),
          Call.ClearDevice ⟨ns.Name, "/dev/" ++ ns.BlockDeviceName, ns.Size⟩ flush none,
          Call.DestroyNamespaceByName volumeId (F.DestroyNamespaceByName w.ctx volumeId).1]
        = [(⟨ns.Name, "/dev/" ++ ns.BlockDeviceName, ns.Size⟩, flush)] ∧
      destroyCalls [Call.GetNamespaceByName volumeId (.ok ns),
          Call.ClearDevice ⟨ns.Name, "/dev/" ++ ns.BlockDeviceName, ns.Size⟩ flush none,
          Call.DestroyNamespaceByName volumeId (F.DestroyNamespaceByName w.ctx volumeId).1]
        = [volumeId]) := by
  have hdev := getDevice_ok F w volumeId ns h
  simp only [namespaceToPmemInfo] at hdev
  constructor
  · intro e he
    have hrun : DeleteDevice F w volumeId flush = (some e,
        ⟨w.ctx,
          (F.ClearDevice w.ctx w.media
            ⟨ns.Name, "/dev/" ++ ns.BlockDeviceName, ns.Size⟩ flush).2,
          w.log ++ [Call.GetNamespaceByName volumeId (.ok ns),
            Call.ClearDevice ⟨ns.Name, "/dev/" ++ ns.BlockDeviceName, ns.Size⟩ flush
              (some e)]⟩) := by
      simp only [DeleteDevice, hdev, callClearDevice, he,
        List.append_assoc, List.singleton_append]
    refine ⟨hrun, rfl, ?_, ?_⟩
    · rw [hrun]; exact h
    · rw [hrun]
  · intro hnone
    refine ⟨?_, rfl, rfl⟩
    simp only [DeleteDevice, hdev, callClearDevice, hnone,
      callDestroyNamespaceByName, List.append_assoc, List.singleton_append, List.cons_append,
      List.nil_append]

/-- C6, on the in-memory facility with `other` on `pmem0` and `data` on `pmem7`:
deleting `data` with `flush = true` while the zeroizer fails returns the
zeroizer's error and keeps both namespaces; with a working zeroizer it is
`/dev/pmem7`, the device of `data`, that is cleared with `flush = true`, then
`data` is destroyed and `other` stays. -/
theorem DeleteDevice_clears_then_destroys_witness :
    (fakeFacility.GetNamespaceByName
        (fakeWorld [] [⟨"other", "pmem0", 2 ^ 31⟩, ⟨"data", "pmem7", 2 ^ 32⟩] none
          (some ⟨"shred failed"⟩)).ctx "data"
        = .ok ⟨"data", "pmem7", 2 ^ 32⟩ ∧
      (DeleteDevice fakeFacility
        (fakeWorld [] [⟨"other", "pmem0", 2 ^ 31⟩, ⟨"data", "pmem7", 2 ^ 32⟩] none
          (some ⟨"shred failed"⟩)) "data" true).1
        = some ⟨"shred failed"⟩ ∧
      fakeFacility.GetActiveNamespaces (DeleteDevice fakeFacility
        (fakeWorld [] [⟨"other", "pmem0", 2 ^ 31⟩, ⟨"data", "pmem7", 2 ^ 32⟩] none
          (some ⟨"shred failed"⟩)) "data" true).2.ctx
        = [⟨"other", "pmem0", 2 ^ 31⟩, ⟨"data", "pmem7", 2 ^ 32⟩]) ∧
    (DeleteDevice fakeFacility
        (fakeWorld [] [⟨"other", "pmem0", 2 ^ 31⟩, ⟨"data", "pmem7", 2 ^ 32⟩] none none)
        "data" true
      = (none, ⟨⟨[], [⟨"other", "pmem0", 2 ^ 31⟩], ["pmem1", "pmem2", "pmem3", "pmem7"], none⟩,
          ⟨none, [("/dev/pmem7", true)]⟩,
          [Call.GetNamespaceByName "data" (.ok ⟨"data", "pmem7", 2 ^ 32⟩),
            Call.ClearDevice ⟨"data", "/dev/pmem7", 2 ^ 32⟩ true none,
            Call.DestroyNamespaceByName "data" none]⟩)) := by
  have hfail := (DeleteDevice_clears_then_destroys fakeFacility
    (fakeWorld [] [⟨"other", "pmem0", 2 ^ 31⟩, ⟨"data", "pmem7", 2 ^ 32⟩] none
      (some ⟨"shred failed"⟩)) "data" true
    ⟨"data", "pmem7", 2 ^ 32⟩ (by rfl)).1 ⟨"shred failed"⟩ (by rfl)
  have hgood := ((DeleteDevice_clears_then_destroys fakeFacility
    (fakeWorld [] [⟨"other", "pmem0", 2 ^ 31⟩, ⟨"data", "pmem7", 2 ^ 32⟩] none none)
    "data" true ⟨"data", "pmem7", 2 ^ 32⟩ (by rfl)).2 (by rfl)).1
  refine ⟨⟨by rfl, ?_, ?_⟩, ?_⟩
  · rw [hfail.1]
  · rw [hfail.2.2.2]; rfl
  · rw [hgood]; rfl

/-- C7: when the by-name lookup of an id fails with error `e`, `DeleteDevice`,
`FlushDeviceData` and `GetDevice` each return `e`; their only facility call is
that lookup (no zeroizer call, no destroy call), and the library state and the
media, hence the set of active namespaces, are unchanged. -/
theorem absent_id_lookup_error {σ δ : Type} (F : Facility σ δ) (w : World σ δ)
    (volumeId : String) (e : GoError)
    (h : F.GetNamespaceByName w.ctx volumeId = .error e) :
    (∀ flush : Bool, DeleteDevice F w volumeId flush = (some e,
      ⟨w.ctx, w.media, w.log ++ [Call.GetNamespaceByName volumeId (.error e)]⟩)) ∧
    FlushDeviceData F w volumeId = (some e,
      ⟨w.ctx, w.media, w.log ++ [Call.GetNamespaceByName volumeId (.error e)]⟩) ∧
    GetDevice F w volumeId = ((PmemDeviceInfo.zero, some e),
      ⟨w.ctx, w.media, w.log ++ [Call.GetNamespaceByName volumeId (.error e)]⟩) ∧
    clearCalls [Call.GetNamespaceByName volumeId (.error e)] = [] ∧
    destroyCalls [Call.GetNamespaceByName volumeId (.error e)] = [] := by
  refine ⟨fun flush => ?_, ?_, ?_, rfl, rfl⟩
  · simp only [DeleteDevice, getDevice_error F w volumeId e h]
  · simp only [FlushDeviceData, getDevice_error F w volumeId e h]
  · simp only [GetDevice, getDevice_error F w volumeId e h]

/-- C7, on the in-memory facility with only `other` active: the three
operations on `vol` return the lookup's error. -/
theorem absent_id_lookup_error_witness :
    fakeFacility.GetNamespaceByName
        (fakeWorld [] [⟨"other", "pmem0", 2 ^ 31⟩] none none).ctx "vol"
        = .error ⟨"namespace not found"⟩ ∧
      (DeleteDevice fakeFacility (fakeWorld [] [⟨"other", "pmem0", 2 ^ 31⟩] none none)
        "vol" true).1 = some ⟨"namespace not found"⟩ ∧
      (FlushDeviceData fakeFacility (fakeWorld [] [⟨"other", "pmem0", 2 ^ 31⟩] none none)
        "vol").1 = some ⟨"namespace not found"⟩ ∧
      (GetDevice fakeFacility (fakeWorld [] [⟨"other", "pmem0", 2 ^ 31⟩] none none)
        "vol").1 = (PmemDeviceInfo.zero, some ⟨"namespace not found"⟩) := by
  have hall := absent_id_lookup_error fakeFacility
    (fakeWorld [] [⟨"other", "pmem0", 2 ^ 31⟩] none none) "vol" ⟨"namespace not found"⟩
    (by rfl)
  refine ⟨by rfl, ?_, ?_, ?_⟩
  · rw [hall.1 true]
  · rw [hall.2.1]
  · rw [hall.2.2.1]

/-- C8: for an id that is not active, if the allocation succeeds, the new
namespace resolves, and the zeroizer then fails with `e`, `CreateDevice` returns
exactly `e`, makes no destroy call so that the id stays active, and a
`CreateDevice` with the same id right after fails with the already-exists error
after the lookup alone, without a create-namespace request. -/
theorem CreateDevice_zeroizer_failure {σ δ : Type} (F : Facility σ δ) (w : World σ δ)
    (volumeId : String) (size size2 : Nat) (nsmode nsmode2 : String) (e0 e : GoError)
    (ns ns1 : Namespace)
    (h0 : F.GetNamespaceByName w.ctx volumeId = .error e0)
    (h1 : (F.CreateNamespace w.ctx
      ⟨volumeId, (size + ndctlAlign) % 2 ^ 64, ndctlAlign, nsmode⟩).1 = .ok ns)
    (h2 : F.GetNamespaceByName (F.CreateNamespace w.ctx
      ⟨volumeId, (size + ndctlAlign) % 2 ^ 64, ndctlAlign, nsmode⟩).2 volumeId = .ok ns1)
    (h3 : (F.ClearDevice (F.CreateNamespace w.ctx
      ⟨volumeId, (size + ndctlAlign) % 2 ^ 64, ndctlAlign, nsmode⟩).2 w.media
      (namespaceToPmemInfo ns1) false).1 = some e) :
    (CreateDevice F w volumeId size nsmode).1 = some e ∧
      (CreateDevice F w volumeId size nsmode).2.log =
        w.log ++ [Call.GetNamespaceByName volumeId (.error e0),
          Call.CreateNamespace ⟨volumeId, (size + ndctlAlign) % 2 ^ 64, ndctlAlign, nsmode⟩
            (.ok ns),
          Call.GetNamespaceByName volumeId (.ok ns1),
          Call.ClearDevice (namespaceToPmemInfo ns1) false (some e)] ∧
      destroyCalls [Call.GetNamespaceByName volumeId (.error e0),
          Call.CreateNamespace ⟨volumeId, (size + ndctlAlign) % 2 ^ 64, ndctlAlign, nsmode⟩
            (.ok ns),
          Call.GetNamespaceByName volumeId (.ok ns1),
          Call.ClearDevice (namespaceToPmemInfo ns1) false (some e)] = [] ∧
      F.GetNamespaceByName (CreateDevice F w volumeId size nsmode).2.ctx volumeId = .ok ns1 ∧
      CreateDevice F (CreateDevice F w volumeId size nsmode).2 volumeId size2 nsmode2
        = (some errNamespaceExists,
          ⟨(CreateDevice F w volumeId size nsmode).2.ctx,
            (CreateDevice F w volumeId size nsmode).2.media,
            (CreateDevice F w volumeId size nsmode).2.log
              ++ [Call.GetNamespaceByName volumeId (.ok ns1)]⟩) ∧
      createRequests [Call.GetNamespaceByName volumeId (.ok ns1)] = [] := by
  have hrun := CreateDevice_full_run F w volumeId size nsmode e0 ns ns1 h0 h1 h2
  have hctx : F.GetNamespaceByName (CreateDevice F w volumeId size nsmode).2.ctx volumeId
      = .ok ns1 := by
    rw [hrun]; exact h2
  refine ⟨?_, ?_, rfl, hctx, ?_, rfl⟩
  · rw [hrun]; exact h3
  · rw [hrun, h3]
  · exact CreateDevice_of_active F _ volumeId size2 nsmode2 ns1 hctx

/-- C8, on the in-memory facility with a failing zeroizer: creating `vol`
returns the zeroizer's error, `vol` stays active, and creating it again is
refused. -/
theorem CreateDevice_zeroizer_failure_witness :
    (CreateDevice fakeFacility (fakeWorld [] [] none (some ⟨"shred failed"⟩)) "vol" (2 ^ 30)
        FsdaxMode).1 = some ⟨"shred failed"⟩ ∧
      fakeFacility.GetActiveNamespaces
        (CreateDevice fakeFacility (fakeWorld [] [] none (some ⟨"shred failed"⟩)) "vol" (2 ^ 30)
          FsdaxMode).2.ctx = [⟨"vol", "pmem0", 2 ^ 31⟩] ∧
      (CreateDevice fakeFacility
        (CreateDevice fakeFacility (fakeWorld [] [] none (some ⟨"shred failed"⟩)) "vol" (2 ^ 30)
          FsdaxMode).2 "vol" (2 ^ 30) FsdaxMode).1 = some errNamespaceExists := by
  have hall := CreateDevice_zeroizer_failure fakeFacility
    (fakeWorld [] [] none (some ⟨"shred failed"⟩)) "vol" (2 ^ 30) (2 ^ 30) FsdaxMode FsdaxMode
    ⟨"namespace not found"⟩ ⟨"shred failed"⟩ ⟨"vol", "pmem0", 2 ^ 31⟩ ⟨"vol", "pmem0", 2 ^ 31⟩
    (by rfl) (by rfl) (by rfl) (by rfl)
  refine ⟨hall.1, by rfl, ?_⟩
  rw [hall.2.2.2.2.1]

/-! ## Start-up guard -/

theorem checkOpts_eq (opts : List String) :
    checkOpts opts = if "ro" ∈ opts then some errSysReadOnly else none := by
  induction opts with
  | nil => simp [checkOpts]
  | cons opt rest ih =>
    unfold checkOpts
    by_cases hrw : opt = "rw"
    · have hne : ¬ "ro" = opt := by rw [hrw]; decide
      simp only [hrw, if_true, ih, List.mem_cons]
      have hne2 : ¬ "ro" = "rw" := by decide
      simp only [hne2, false_or]
    · by_cases hro : opt = "ro"
      · simp [hro]
      · have hne : ¬ "ro" = opt := fun h => hro h.symm
        simp only [hrw, hro, if_false, ih, List.mem_cons, hne, false_or]

theorem checkMounts_eq (mounts : List MountPoint) :
    checkMounts mounts =
      match mounts.find? (fun m => decide (m.Device = "sysfs" ∧ m.Path = "/sys")) with
      | some m => checkOpts m.Opts
      | none => none := by
  induction mounts with
  | nil => simp [checkMounts]
  | cons m rest ih =>
    unfold checkMounts
    by_cases hm : m.Device = "sysfs" ∧ m.Path = "/sys"
    · simp [hm, List.find?]
    · rw [if_neg hm, ih]
      simp [List.find?, hm]

/-- C9, as stated, fails: with a read-write `sysfs` mount on `/sys` listed
before a read-only one, the mount table contains a `sysfs` mount on `/sys`
carrying `ro`, yet the constructor returns a manager and a nil error. -/
theorem NewPmemDeviceManagerNdctl_later_mount_counterexample :
    (∃ m ∈ [(⟨"sysfs", "/sys", ["rw"]⟩ : MountPoint), ⟨"sysfs", "/sys", ["ro"]⟩],
        m.Device = "sysfs" ∧ m.Path = "/sys" ∧ "ro" ∈ m.Opts) ∧
      NewPmemDeviceManagerNdctl (Except.ok ())
        [⟨"sysfs", "/sys", ["rw"]⟩, ⟨"sysfs", "/sys", ["ro"]⟩] = (some ⟨()⟩, none) := by
  refine ⟨⟨⟨"sysfs", "/sys", ["ro"]⟩, by decide, by decide⟩, by rfl⟩

/-- C9, amended: given that the context initialises, for every mount table: if
the first mount with device `sysfs` and path `/sys` carries the option `ro`,
the constructor returns the read-only error and no manager; if there is no
such mount, or the first one does not carry `ro` (in particular if no `sysfs`
mount on `/sys` carries `ro`), it returns a manager holding the context and a
nil error. -/
theorem NewPmemDeviceManagerNdctl_first_sysfs_mount {σ : Type} (ctx : σ)
    (mounts : List MountPoint) :
    (∀ m : MountPoint,
      mounts.find? (fun m => decide (m.Device = "sysfs" ∧ m.Path = "/sys")) = some m →
      "ro" ∈ m.Opts →
        NewPmemDeviceManagerNdctl (Except.ok ctx) mounts = (none, some errSysReadOnly)) ∧
    ((∀ m : MountPoint,
      mounts.find? (fun m => decide (m.Device = "sysfs" ∧ m.Path = "/sys")) = some m →
      "ro" ∉ m.Opts) →
        NewPmemDeviceManagerNdctl (Except.ok ctx) mounts = (some ⟨ctx⟩, none)) ∧
    ((∀ m ∈ mounts, m.Device = "sysfs" ∧ m.Path = "/sys" → "ro" ∉ m.Opts) →
        NewPmemDeviceManagerNdctl (Except.ok ctx) mounts = (some ⟨ctx⟩, none)) := by
  have hfirst : (∀ m : MountPoint,
      mounts.find? (fun m => decide (m.Device = "sysfs" ∧ m.Path = "/sys")) = some m →
      "ro" ∉ m.Opts) →
        NewPmemDeviceManagerNdctl (Except.ok ctx) mounts = (some ⟨ctx⟩, none) := by
    intro h
    unfold NewPmemDeviceManagerNdctl
    rw [checkMounts_eq]
    cases hf : mounts.find? (fun m => decide (m.Device = "sysfs" ∧ m.Path = "/sys")) with
    | none => rfl
    | some m =>
      simp only
      rw [checkOpts_eq, if_neg (h m hf)]
  refine ⟨?_, hfirst, ?_⟩
  · intro m hf hro
    unfold NewPmemDeviceManagerNdctl
    rw [checkMounts_eq, hf]
    simp only
    rw [checkOpts_eq, if_pos hro]
  · intro h
    apply hfirst
    intro m hf
    have hmem := List.mem_of_find?_eq_some hf
    have hp := List.find?_some hf
    exact h m hmem (of_decide_eq_true hp)

/-- C9, amended, on two mount tables: a read-only `/sys` listed first is
refused, and a table whose first `sysfs` mount on `/sys` is read-write is
accepted. -/
theorem NewPmemDeviceManagerNdctl_first_sysfs_mount_witness :
    NewPmemDeviceManagerNdctl (Except.ok ())
        [⟨"proc", "/proc", ["rw"]⟩, ⟨"sysfs", "/sys", ["nosuid", "ro"]⟩]
        = (none, some errSysReadOnly) ∧
      NewPmemDeviceManagerNdctl (Except.ok ())
        [⟨"proc", "/proc", ["ro"]⟩, ⟨"sysfs", "/sys", ["rw", "nosuid"]⟩]
        = (some ⟨()⟩, none) :=
  ⟨(NewPmemDeviceManagerNdctl_first_sysfs_mount ()
      [⟨"proc", "/proc", ["rw"]⟩, ⟨"sysfs", "/sys", ["nosuid", "ro"]⟩]).1
      ⟨"sysfs", "/sys", ["nosuid", "ro"]⟩ (by rfl) (by decide),
    (NewPmemDeviceManagerNdctl_first_sysfs_mount ()
      [⟨"proc", "/proc", ["ro"]⟩, ⟨"sysfs", "/sys", ["rw", "nosuid"]⟩]).2.2
      (by decide)⟩

end PmemCsi
